import Mathlib

/-!
Verification of the Loan-Advisor engine (src/src/App.js, the "Simplified App"
variant).  The numeric engine is embedded over `ℚ`; the one log-based helper
(`calculateNewTenure`) is embedded over `ℝ`, since it applies `Math.log`.
A run of `analyzeLoan` that would not terminate in the source (the
"never amortizes" infinite-tenure case reaching the schedule loop with an
infinite bound) is modelled as `none`.
-/

namespace LoanAdvisor

/-- One row of a month-by-month amortization schedule, as pushed by
`generateFullAmortization`. -/
structure Row where
  month : ℕ
  interest : ℚ
  principal : ℚ
  totalPayment : ℚ
  endingBalance : ℚ
deriving DecidableEq, Repr

/-- Constant `SECTION_24B_SOP_LIMIT` (₹2,00,000). -/
def SECTION_24B_SOP_LIMIT : ℚ := 200000

/-- Constant `SECTION_80C_LIMIT` (₹1,50,000). -/
def SECTION_80C_LIMIT : ℚ := 150000

/-- Constant `EQUITY_LTCG_TAX_RATE` (10%). -/
def EQUITY_LTCG_TAX_RATE : ℚ := 1 / 10

/-- Constant `EQUITY_LTCG_EXEMPTION` (₹1,00,000). -/
def EQUITY_LTCG_EXEMPTION : ℚ := 100000

/-- `calculateEMI(p, r, n)`: the standard amortizing-loan installment formula,
with the defensive guard returning 0 for non-positive inputs.  Months are a
natural number, so the JS guard `n <= 0` is `n = 0`. -/
def calculateEMI (p r : ℚ) (n : ℕ) : ℚ :=
  if p ≤ 0 ∨ r ≤ 0 ∨ n = 0 then 0
  else
    let monthlyRate := r / 100 / 12
    p * monthlyRate * (1 + monthlyRate) ^ n / ((1 + monthlyRate) ^ n - 1)

/-- `calculateNewTenure(newPrincipal, originalEmi, annualRate)`: log-based
closed form for the number of months needed to retire `newPrincipal` at the
fixed installment `originalEmi`.  The JS value `Infinity` is modelled as `⊤`
in `WithTop ℤ`; `Math.ceil` is `Int.ceil`. -/
noncomputable def calculateNewTenure (newPrincipal originalEmi annualRate : ℝ) :
    WithTop ℤ :=
  if newPrincipal ≤ 0 ∨ originalEmi ≤ 0 ∨ annualRate ≤ 0 then ((0 : ℤ) : WithTop ℤ)
  else
    let monthlyRate := annualRate / 100 / 12
    if originalEmi ≤ newPrincipal * monthlyRate then ⊤
    else
      let numerator := Real.log (1 - newPrincipal * monthlyRate / originalEmi)
      let denominator := Real.log (1 + monthlyRate)
      ((⌈-numerator / denominator⌉ : ℤ) : WithTop ℤ)

/-- One month's balance update inside `generateFullAmortization`:
`balance -= max(0, emi - balance*monthlyRate)`, then clamp a negative
balance to 0. -/
def stepBalance (monthlyRate emi balance : ℚ) : ℚ :=
  let principalForMonth := max 0 (emi - balance * monthlyRate)
  let rawBalance := balance - principalForMonth
  if rawBalance < 0 then 0 else rawBalance

/-- The loop body of `generateFullAmortization`: `fuel` months remain,
`i` is the 1-based month index, `balance` the running balance.  Each
iteration pushes a row (interest, the clamped principal portion, the
installment, and the updated balance) and stops as soon as the updated
balance is 0. -/
def amortizeFrom (monthlyRate emi : ℚ) : ℕ → ℕ → ℚ → List Row
  | 0, _, _ => []
  | fuel + 1, i, balance =>
    let row : Row :=
      ⟨i, balance * monthlyRate, max 0 (emi - balance * monthlyRate), emi,
        stepBalance monthlyRate emi balance⟩
    if stepBalance monthlyRate emi balance = 0 then [row]
    else row :: amortizeFrom monthlyRate emi fuel (i + 1) (stepBalance monthlyRate emi balance)

/-- `generateFullAmortization(principal, annualRate, months, emi)`:
returns `[]` when `principal ≤ 0` or `emi ≤ 0`, otherwise iterates the
monthly loop at most `months` times starting from month 1. -/
def generateFullAmortization (principal annualRate : ℚ) (months : ℕ) (emi : ℚ) :
    List Row :=
  if principal ≤ 0 ∨ emi ≤ 0 then []
  else amortizeFrom (annualRate / 100 / 12) emi months 1 principal

/-- One entry of the `yearlyData` array built inside `analyzeLoan`:
1-based year index with that year's summed interest and principal. -/
structure YearAgg where
  year : ℕ
  interest : ℚ
  principal : ℚ
deriving DecidableEq, Repr

/-- The chunk-of-12 recursion behind `yearlyAggregatesFrom`, made structural
on a fuel argument; one unit of fuel is spent per year chunk, and each
nonempty chunk consumes at least one row, so `rows.length` fuel suffices. -/
def yearlyAggAux (monthsPerYear : ℕ) : ℕ → ℕ → List Row → List YearAgg
  | 0, _, _ => []
  | _, _, [] => []
  | fuel + 1, y, rows =>
    { year := y
      interest := ((rows.take monthsPerYear).map Row.interest).sum
      principal := ((rows.take monthsPerYear).map Row.principal).sum } ::
      yearlyAggAux monthsPerYear fuel (y + 1) (rows.drop monthsPerYear)

/-- The `yearlyData` accumulation of `analyzeLoan`: buckets the monthly rows
into chronological chunks of 12 (the trailing chunk may be partial),
summing interest and principal per chunk; `y` is the first year index. -/
def yearlyAggregatesFrom (y : ℕ) (rows : List Row) : List YearAgg :=
  yearlyAggAux 12 rows.length y rows

/-- The deduction-cap loop of `analyzeLoan`: for each year, deduct
`min(principal, available80C)` and `min(interest, SECTION_24B_SOP_LIMIT)`,
and accumulate `(principalDeduction + interestDeduction) * slab`. -/
def applyDeductionCaps (yearly : List YearAgg) (available80C slab : ℚ) : ℚ :=
  yearly.foldl
    (fun acc y =>
      acc + (min y.principal available80C + min y.interest SECTION_24B_SOP_LIMIT) * slab)
    0

/-- `taxRegime` state: `"old"` or `"new"`. -/
inductive TaxRegime
  | old
  | new
deriving DecidableEq, Repr

/-- `investmentType` state: `"equity"` or `"fd"`. -/
inductive InvestmentType
  | equity
  | fd
deriving DecidableEq, Repr

/-- `prepaymentMethod` state: `"reduceEmi"` or `"reduceTenure"`. -/
inductive PrepaymentMethod
  | reduceEmi
  | reduceTenure
deriving DecidableEq, Repr

/-- The `betterOption` result: `"Invest"` or `"Prepay"`. -/
inductive Recommendation
  | Invest
  | Prepay
deriving DecidableEq, Repr

/-- The inputs read by `analyzeLoan` (the component state that feeds the
calculation). -/
structure ScenarioInput where
  loanAmount : ℚ
  interestRate : ℚ
  tenureYears : ℕ
  extraCash : ℚ
  investmentReturn : ℚ
  investmentType : InvestmentType
  taxRegime : TaxRegime
  taxSlab : ℚ
  used80C : ℚ
  prepaymentMethod : PrepaymentMethod
deriving DecidableEq, Repr

/-- The record passed to `setResults` (graph data omitted). -/
structure Result where
  originalEmi : ℚ
  newEmi : ℚ
  interestSaved : ℚ
  investmentGain : ℚ
  postTaxInvestmentGain : ℚ
  originalLoanTaxBenefit : ℚ
  prepaidLoanTaxBenefit : ℚ
  netBenefitInvesting : ℚ
  netBenefitPrepaying : ℚ
  betterOption : Recommendation
  originalTenureMonths : ℕ
  newTenureMonths : ℕ
  effectiveLoanRate : ℚ
  originalAmortization : List Row
  prepaidAmortization : List Row
  investmentTax : ℚ
deriving DecidableEq, Repr

/-- `analyzeLoan`: the main calculation.  Returns `none` exactly when the
source would loop forever: the reduce-tenure path with
`calculateNewTenure = Infinity` feeding the schedule loop an infinite bound. -/
noncomputable def analyzeLoan (inp : ScenarioInput) : Option Result :=
  let p := inp.loanAmount
  let r := inp.interestRate
  let n := inp.tenureYears * 12
  let cash := inp.extraCash
  let invReturn := inp.investmentReturn
  let slab := inp.taxSlab / 100
  let available80C := max 0 (SECTION_80C_LIMIT - inp.used80C)
  let originalEmi := calculateEMI p r n
  let originalAmortization := generateFullAmortization p r n originalEmi
  let totalInterestOriginal := (originalAmortization.map Row.interest).sum
  let futureValue := cash * (1 + invReturn / 100) ^ inp.tenureYears
  let investmentGain := futureValue - cash
  let investmentTax :=
    if inp.investmentType = InvestmentType.equity then
      max 0 (investmentGain - EQUITY_LTCG_EXEMPTION) * EQUITY_LTCG_TAX_RATE
    else investmentGain * slab
  let postTaxInvestmentGain := investmentGain - investmentTax
  let originalLoanTaxBenefit :=
    if inp.taxRegime = TaxRegime.old then
      applyDeductionCaps (yearlyAggregatesFrom 1 originalAmortization) available80C slab
    else 0
  let netBenefitInvesting := postTaxInvestmentGain + originalLoanTaxBenefit
  let effectiveLoanRate := r * (1 - slab)
  let newLoanAmount := p - cash
  if 0 < newLoanAmount then
    let newPlan : Option (ℚ × ℕ) :=
      match inp.prepaymentMethod with
      | PrepaymentMethod.reduceEmi => some (calculateEMI newLoanAmount r n, n)
      | PrepaymentMethod.reduceTenure =>
        let t := calculateNewTenure (newLoanAmount : ℝ) (originalEmi : ℝ) (r : ℝ)
        if ht : t = ⊤ then none else some (originalEmi, (t.untop ht).toNat)
    match newPlan with
    | none => none
    | some (newEmi, newTenureMonths) =>
      let prepaidAmortization :=
        generateFullAmortization newLoanAmount r newTenureMonths newEmi
      let totalInterestAfterPrepay := (prepaidAmortization.map Row.interest).sum
      let interestSaved := totalInterestOriginal - totalInterestAfterPrepay
      let prepaidLoanTaxBenefit :=
        if inp.taxRegime = TaxRegime.old then
          applyDeductionCaps (yearlyAggregatesFrom 1 prepaidAmortization) available80C slab
        else 0
      let netBenefitPrepaying := interestSaved + prepaidLoanTaxBenefit
      some
        { originalEmi := originalEmi
          newEmi := newEmi
          interestSaved := interestSaved
          investmentGain := investmentGain
          postTaxInvestmentGain := postTaxInvestmentGain
          originalLoanTaxBenefit := originalLoanTaxBenefit
          prepaidLoanTaxBenefit := prepaidLoanTaxBenefit
          netBenefitInvesting := netBenefitInvesting
          netBenefitPrepaying := netBenefitPrepaying
          betterOption :=
            if netBenefitInvesting > netBenefitPrepaying then Recommendation.Invest
            else Recommendation.Prepay
          originalTenureMonths := n
          newTenureMonths := newTenureMonths
          effectiveLoanRate := effectiveLoanRate
          originalAmortization := originalAmortization
          prepaidAmortization := prepaidAmortization
          investmentTax := investmentTax }
  else
    let interestSaved := totalInterestOriginal
    let netBenefitPrepaying := interestSaved + 0
    some
      { originalEmi := originalEmi
        newEmi := 0
        interestSaved := interestSaved
        investmentGain := investmentGain
        postTaxInvestmentGain := postTaxInvestmentGain
        originalLoanTaxBenefit := originalLoanTaxBenefit
        prepaidLoanTaxBenefit := 0
        netBenefitInvesting := netBenefitInvesting
        netBenefitPrepaying := netBenefitPrepaying
        betterOption :=
          if netBenefitInvesting > netBenefitPrepaying then Recommendation.Invest
          else Recommendation.Prepay
        originalTenureMonths := n
        newTenureMonths := 0
        effectiveLoanRate := effectiveLoanRate
        originalAmortization := originalAmortization
        prepaidAmortization := []
        investmentTax := investmentTax }

/-- A degenerate scenario (zero rate, zero return, prepay smaller than the
loan, reduce-installment method) used to instantiate the comparator claim. -/
def decisionSampleInput : ScenarioInput :=
  { loanAmount := 100, interestRate := 0, tenureYears := 1, extraCash := 50,
    investmentReturn := 0, investmentType := InvestmentType.equity,
    taxRegime := TaxRegime.old, taxSlab := 30, used80C := 0,
    prepaymentMethod := PrepaymentMethod.reduceEmi }

/-- The result `analyzeLoan` produces on `decisionSampleInput`. -/
def decisionSampleResult : Result :=
  { originalEmi := 0, newEmi := 0, interestSaved := 0, investmentGain := 0,
    postTaxInvestmentGain := 0, originalLoanTaxBenefit := 0,
    prepaidLoanTaxBenefit := 0, netBenefitInvesting := 0,
    netBenefitPrepaying := 0, betterOption := Recommendation.Prepay,
    originalTenureMonths := 12, newTenureMonths := 12,
    effectiveLoanRate := 0, originalAmortization := [],
    prepaidAmortization := [], investmentTax := 0 }

/-- An old-regime scenario with part of the 80C allowance already used,
used to instantiate the deduction-cap claim. -/
def deductionSampleInput : ScenarioInput :=
  { loanAmount := 100, interestRate := 0, tenureYears := 1, extraCash := 50,
    investmentReturn := 0, investmentType := InvestmentType.equity,
    taxRegime := TaxRegime.old, taxSlab := 20, used80C := 150000,
    prepaymentMethod := PrepaymentMethod.reduceEmi }

/-- The result `analyzeLoan` produces on `deductionSampleInput`. -/
def deductionSampleResult : Result :=
  { originalEmi := 0, newEmi := 0, interestSaved := 0, investmentGain := 0,
    postTaxInvestmentGain := 0, originalLoanTaxBenefit := 0,
    prepaidLoanTaxBenefit := 0, netBenefitInvesting := 0,
    netBenefitPrepaying := 0, betterOption := Recommendation.Prepay,
    originalTenureMonths := 12, newTenureMonths := 12,
    effectiveLoanRate := 0, originalAmortization := [],
    prepaidAmortization := [], investmentTax := 0 }

/-- A new-regime scenario used to instantiate the regime-suppression claim. -/
def newRegimeSampleInput : ScenarioInput :=
  { loanAmount := 100, interestRate := 0, tenureYears := 1, extraCash := 50,
    investmentReturn := 0, investmentType := InvestmentType.fd,
    taxRegime := TaxRegime.new, taxSlab := 30, used80C := 0,
    prepaymentMethod := PrepaymentMethod.reduceEmi }

/-- The result `analyzeLoan` produces on `newRegimeSampleInput`. -/
def newRegimeSampleResult : Result :=
  { originalEmi := 0, newEmi := 0, interestSaved := 0, investmentGain := 0,
    postTaxInvestmentGain := 0, originalLoanTaxBenefit := 0,
    prepaidLoanTaxBenefit := 0, netBenefitInvesting := 0,
    netBenefitPrepaying := 0, betterOption := Recommendation.Prepay,
    originalTenureMonths := 12, newTenureMonths := 12,
    effectiveLoanRate := 0, originalAmortization := [],
    prepaidAmortization := [], investmentTax := 0 }

/-- A scenario whose extra cash exceeds the outstanding principal, used to
instantiate the fully-retired-loan claim. -/
def retiredSampleInput : ScenarioInput :=
  { loanAmount := 100, interestRate := 0, tenureYears := 1, extraCash := 200,
    investmentReturn := 0, investmentType := InvestmentType.equity,
    taxRegime := TaxRegime.old, taxSlab := 30, used80C := 0,
    prepaymentMethod := PrepaymentMethod.reduceTenure }

/-- The result `analyzeLoan` produces on `retiredSampleInput`. -/
def retiredSampleResult : Result :=
  { originalEmi := 0, newEmi := 0, interestSaved := 0, investmentGain := 0,
    postTaxInvestmentGain := 0, originalLoanTaxBenefit := 0,
    prepaidLoanTaxBenefit := 0, netBenefitInvesting := 0,
    netBenefitPrepaying := 0, betterOption := Recommendation.Prepay,
    originalTenureMonths := 12, newTenureMonths := 0,
    effectiveLoanRate := 0, originalAmortization := [],
    prepaidAmortization := [], investmentTax := 0 }

/-- An equity scenario whose gross gain is below the LTCG exemption, used to
instantiate the investment-projection claim. -/
def investmentSampleInput : ScenarioInput :=
  { loanAmount := 100, interestRate := 0, tenureYears := 1, extraCash := 50,
    investmentReturn := 100, investmentType := InvestmentType.equity,
    taxRegime := TaxRegime.old, taxSlab := 30, used80C := 0,
    prepaymentMethod := PrepaymentMethod.reduceEmi }

/-- The result `analyzeLoan` produces on `investmentSampleInput`
(the invested 50 doubles in one year: gain 50, far below the exemption). -/
def investmentSampleResult : Result :=
  { originalEmi := 0, newEmi := 0, interestSaved := 0, investmentGain := 50,
    postTaxInvestmentGain := 50, originalLoanTaxBenefit := 0,
    prepaidLoanTaxBenefit := 0, netBenefitInvesting := 50,
    netBenefitPrepaying := 0, betterOption := Recommendation.Invest,
    originalTenureMonths := 12, newTenureMonths := 12,
    effectiveLoanRate := 0, originalAmortization := [],
    prepaidAmortization := [], investmentTax := 0 }

/-- A well-formed reduce-tenure scenario (positive rate, cash strictly
between 0 and the principal), used to instantiate the safety claim. -/
def reduceTenureSampleInput : ScenarioInput :=
  { loanAmount := 100, interestRate := 12, tenureYears := 1, extraCash := 50,
    investmentReturn := 12, investmentType := InvestmentType.equity,
    taxRegime := TaxRegime.old, taxSlab := 30, used80C := 0,
    prepaymentMethod := PrepaymentMethod.reduceTenure }

lemma stepBalance_nonneg (mr emi b : ℚ) : 0 ≤ stepBalance mr emi b := by
  unfold stepBalance
  dsimp only
  split
  · exact le_refl 0
  next h => exact le_of_not_lt h

lemma stepBalance_le (mr emi b : ℚ) (hb : 0 ≤ b) : stepBalance mr emi b ≤ b := by
  unfold stepBalance
  dsimp only
  split
  · exact hb
  · have h0 := le_max_left (0 : ℚ) (emi - b * mr)
    linarith

lemma amortizeFrom_length_le (mr emi : ℚ) :
    ∀ (fuel i : ℕ) (b : ℚ), (amortizeFrom mr emi fuel i b).length ≤ fuel := by
  intro fuel
  induction fuel with
  | zero => intro i b; simp [amortizeFrom]
  | succ fuel ih =>
    intro i b
    simp only [amortizeFrom]
    split
    · simp
    · have h1 := ih (i + 1) (stepBalance mr emi b)
      simp only [List.length_cons]
      omega

lemma amortizeFrom_ending_nonneg (mr emi : ℚ) :
    ∀ (fuel i : ℕ) (b : ℚ), ∀ row ∈ amortizeFrom mr emi fuel i b,
      0 ≤ row.endingBalance := by
  intro fuel
  induction fuel with
  | zero => intro i b row hrow; simp [amortizeFrom] at hrow
  | succ fuel ih =>
    intro i b row hrow
    simp only [amortizeFrom] at hrow
    split at hrow
    · rw [List.mem_singleton] at hrow
      subst hrow
      exact stepBalance_nonneg mr emi b
    · rcases List.mem_cons.mp hrow with hr1 | hr1
      · subst hr1
        exact stepBalance_nonneg mr emi b
      · exact ih (i + 1) (stepBalance mr emi b) row hr1

lemma amortizeFrom_head_ending_le (mr emi : ℚ) (fuel i : ℕ) (b : ℚ) (hb : 0 ≤ b) :
    ∀ row ∈ (amortizeFrom mr emi fuel i b).head?, row.endingBalance ≤ b := by
  intro row hrow
  cases fuel with
  | zero => simp [amortizeFrom] at hrow
  | succ fuel =>
    simp only [amortizeFrom] at hrow
    split at hrow <;>
      · simp only [List.head?_cons, Option.mem_def, Option.some.injEq] at hrow
        subst hrow
        exact stepBalance_le mr emi b hb

lemma amortizeFrom_chain (mr emi : ℚ) :
    ∀ (fuel i : ℕ) (b : ℚ),
      List.Chain' (fun a c => c.endingBalance ≤ a.endingBalance)
        (amortizeFrom mr emi fuel i b) := by
  intro fuel
  induction fuel with
  | zero => intro i b; simp [amortizeFrom]
  | succ fuel ih =>
    intro i b
    simp only [amortizeFrom]
    split
    · simp
    · rw [List.chain'_cons']
      refine ⟨fun c hc => ?_, ih (i + 1) (stepBalance mr emi b)⟩
      exact amortizeFrom_head_ending_le mr emi fuel (i + 1) (stepBalance mr emi b)
        (stepBalance_nonneg mr emi b) c hc

lemma amortizeFrom_dropLast_ne_zero (mr emi : ℚ) :
    ∀ (fuel i : ℕ) (b : ℚ), ∀ row ∈ (amortizeFrom mr emi fuel i b).dropLast,
      row.endingBalance ≠ 0 := by
  intro fuel
  induction fuel with
  | zero => intro i b row hrow; simp [amortizeFrom] at hrow
  | succ fuel ih =>
    intro i b row hrow
    simp only [amortizeFrom] at hrow
    split at hrow
    · simp at hrow
    next hne =>
      cases hrest : amortizeFrom mr emi fuel (i + 1) (stepBalance mr emi b) with
      | nil => rw [hrest] at hrow; simp at hrow
      | cons a l =>
        rw [hrest, List.dropLast_cons₂] at hrow
        rcases List.mem_cons.mp hrow with hr1 | hr1
        · subst hr1
          exact hne
        · exact ih (i + 1) (stepBalance mr emi b) row (by rw [hrest]; exact hr1)

lemma amortizeFrom_row_sum (mr emi : ℚ) (hmr : 0 ≤ mr) :
    ∀ (fuel i : ℕ) (b : ℚ), 0 ≤ b → b * mr ≤ emi →
      ∀ row ∈ amortizeFrom mr emi fuel i b, row.interest + row.principal = emi := by
  intro fuel
  induction fuel with
  | zero => intro i b _ _ row hrow; simp [amortizeFrom] at hrow
  | succ fuel ih =>
    intro i b hb hcov row hrow
    have hmax : max 0 (emi - b * mr) = emi - b * mr := max_eq_right (by linarith)
    have hval : (⟨i, b * mr, max 0 (emi - b * mr), emi, stepBalance mr emi b⟩ :
        Row).interest + (⟨i, b * mr, max 0 (emi - b * mr), emi,
          stepBalance mr emi b⟩ : Row).principal = emi := by
      dsimp only
      rw [hmax]
      ring
    simp only [amortizeFrom] at hrow
    split at hrow
    · rw [List.mem_singleton] at hrow
      subst hrow
      exact hval
    · rcases List.mem_cons.mp hrow with hr1 | hr1
      · subst hr1
        exact hval
      · refine ih (i + 1) (stepBalance mr emi b) (stepBalance_nonneg mr emi b) ?_ row hr1
        calc stepBalance mr emi b * mr ≤ b * mr :=
              mul_le_mul_of_nonneg_right (stepBalance_le mr emi b hb) hmr
          _ ≤ emi := hcov

/-- C2 (counterexample): with principal 1200, annual rate 120% (monthly rate
0.1) and installment 1, the first row of a two-row schedule — not the final
row — has interestPortion + principalPortion = 120 ≠ 1 = installment, so the
claimed invariant fails for a schedule with positive principal and
installment. -/
theorem generateFullAmortization_row_sum_cex :
    (generateFullAmortization 1200 120 2 1).head? =
      some ⟨1, 120, 0, 1, 1200⟩ ∧
    (generateFullAmortization 1200 120 2 1).length = 2 ∧
    (120 : ℚ) + 0 ≠ 1 := by
  refine ⟨?_, ?_, by norm_num⟩ <;>
    norm_num [generateFullAmortization, amortizeFrom, stepBalance]

/-- C2 (amended): if the rate is non-negative and the installment covers the
first month's interest (principal × monthlyRate ≤ installment), then every
row of the schedule — including the final row — satisfies
interestPortion + principalPortion = installment; the principal portion of
the final row is not capped, and endingBalance never goes negative because
the running balance is clamped to 0 instead. -/
theorem generateFullAmortization_row_sum (p r : ℚ) (months : ℕ) (emi : ℚ)
    (hr : 0 ≤ r) (hcov : p * (r / 100 / 12) ≤ emi) :
    (∀ row ∈ generateFullAmortization p r months emi,
      row.interest + row.principal = emi) ∧
    ∀ row ∈ generateFullAmortization p r months emi, 0 ≤ row.endingBalance := by
  unfold generateFullAmortization
  split
  · simp
  next h =>
    push_neg at h
    refine ⟨amortizeFrom_row_sum (r / 100 / 12) emi (by positivity) months 1 p
      (le_of_lt h.1) hcov, fun row hrow => ?_⟩
    exact amortizeFrom_ending_nonneg (r / 100 / 12) emi months 1 p row hrow

/-- Witness for the amended C2 at principal 100, rate 12%, installment 60. -/
theorem generateFullAmortization_row_sum_witness :
    (0 : ℚ) ≤ 12 ∧ (100 : ℚ) * (12 / 100 / 12) ≤ 60 ∧
    List.Forall (fun row => row.interest + row.principal = 60)
      (generateFullAmortization 100 12 2 60) ∧
    List.Forall (fun row => 0 ≤ row.endingBalance)
      (generateFullAmortization 100 12 2 60) := by
  have h := generateFullAmortization_row_sum 100 12 2 60 (by norm_num) (by norm_num)
  exact ⟨by norm_num, by norm_num, List.forall_iff_forall_mem.mpr h.1,
    List.forall_iff_forall_mem.mpr h.2⟩

/-- C9: every schedule has length at most the month bound, its endingBalance
sequence is monotonically non-increasing, and no row before the last has
endingBalance 0 (generation stops at the first zero balance, giving
variable-length early termination). -/
theorem generateFullAmortization_shape (p r : ℚ) (months : ℕ) (emi : ℚ) :
    (generateFullAmortization p r months emi).length ≤ months ∧
    List.Chain' (fun a c => c.endingBalance ≤ a.endingBalance)
      (generateFullAmortization p r months emi) ∧
    ∀ row ∈ (generateFullAmortization p r months emi).dropLast,
      row.endingBalance ≠ 0 := by
  unfold generateFullAmortization
  split
  · simp
  · exact ⟨amortizeFrom_length_le (r / 100 / 12) emi months 1 p,
      amortizeFrom_chain (r / 100 / 12) emi months 1 p,
      amortizeFrom_dropLast_ne_zero (r / 100 / 12) emi months 1 p⟩

/-- C7: `calculateEMI` returns the standard amortizing-loan formula for
positive principal, rate and months, and returns 0 (not an error) whenever
principal ≤ 0, rate ≤ 0, or months = 0. -/
theorem calculateEMI_spec (p r : ℚ) (n : ℕ) :
    (0 < p → 0 < r → 0 < n →
      calculateEMI p r n =
        p * (r / 100 / 12) * (1 + r / 100 / 12) ^ n /
          ((1 + r / 100 / 12) ^ n - 1)) ∧
    (p ≤ 0 ∨ r ≤ 0 ∨ n = 0 → calculateEMI p r n = 0) := by
  constructor
  · intro hp hr hn
    unfold calculateEMI
    rw [if_neg]
    push_neg
    exact ⟨hp, hr, Nat.pos_iff_ne_zero.mp hn⟩
  · intro h
    unfold calculateEMI
    rw [if_pos h]

/-- Witness for C7 at (1200, 1200, 1) and at the degenerate (-1, 5, 3). -/
theorem calculateEMI_spec_witness :
    calculateEMI 1200 1200 1 =
      1200 * (1200 / 100 / 12) * (1 + 1200 / 100 / 12) ^ 1 /
        ((1 + 1200 / 100 / 12) ^ 1 - 1) ∧
    calculateEMI (-1) 5 3 = 0 :=
  ⟨(calculateEMI_spec 1200 1200 1).1 (by norm_num) (by norm_num) (by norm_num),
   (calculateEMI_spec (-1) 5 3).2 (Or.inl (by norm_num))⟩

/-- C3: `calculateNewTenure` returns 0 when principal, installment or rate is
non-positive; returns the ⊤ sentinel (never amortizes) when the installment
cannot cover the monthly interest; and otherwise returns the ceiling of the
log-based closed form. -/
theorem calculateNewTenure_spec (p e r : ℝ) :
    ((p ≤ 0 ∨ e ≤ 0 ∨ r ≤ 0) → calculateNewTenure p e r = ((0 : ℤ) : WithTop ℤ)) ∧
    (0 < p → 0 < e → 0 < r → e ≤ p * (r / 100 / 12) →
      calculateNewTenure p e r = ⊤) ∧
    (0 < p → 0 < e → 0 < r → p * (r / 100 / 12) < e →
      calculateNewTenure p e r =
        ((⌈-Real.log (1 - p * (r / 100 / 12) / e) /
            Real.log (1 + r / 100 / 12)⌉ : ℤ) : WithTop ℤ)) := by
  refine ⟨fun h => ?_, fun hp he hr hle => ?_, fun hp he hr hlt => ?_⟩
  · unfold calculateNewTenure
    rw [if_pos h]
  · unfold calculateNewTenure
    rw [if_neg (by push_neg; exact ⟨hp, he, hr⟩)]
    dsimp only
    rw [if_pos hle]
  · unfold calculateNewTenure
    rw [if_neg (by push_neg; exact ⟨hp, he, hr⟩)]
    dsimp only
    rw [if_neg (not_le.mpr hlt)]

/-- Witness for C3 across all three branches: a non-positive principal, a
non-amortizing installment (50 ≤ 1200 · 1/12 = 100), and an amortizing one
(100 < 200). -/
theorem calculateNewTenure_spec_witness :
    calculateNewTenure (-1) 1 1 = ((0 : ℤ) : WithTop ℤ) ∧
    calculateNewTenure 1200 50 100 = ⊤ ∧
    calculateNewTenure 1200 200 100 =
      ((⌈-Real.log (1 - 1200 * ((100 : ℝ) / 100 / 12) / 200) /
          Real.log (1 + (100 : ℝ) / 100 / 12)⌉ : ℤ) : WithTop ℤ) :=
  ⟨(calculateNewTenure_spec (-1) 1 1).1 (Or.inl (by norm_num)),
   (calculateNewTenure_spec 1200 50 100).2.1 (by norm_num) (by norm_num)
     (by norm_num) (by norm_num),
   (calculateNewTenure_spec 1200 200 100).2.2 (by norm_num) (by norm_num)
     (by norm_num) (by norm_num)⟩

lemma applyDeductionCaps_eq_sum (yearly : List YearAgg) (a s : ℚ) :
    applyDeductionCaps yearly a s =
      (yearly.map (fun y =>
        (min y.interest SECTION_24B_SOP_LIMIT + min y.principal a) * s)).sum := by
  have haux : ∀ (l : List YearAgg) (acc : ℚ),
      l.foldl (fun acc y =>
        acc + (min y.principal a + min y.interest SECTION_24B_SOP_LIMIT) * s) acc =
      acc + (l.map (fun y =>
        (min y.interest SECTION_24B_SOP_LIMIT + min y.principal a) * s)).sum := by
    intro l
    induction l with
    | nil => intro acc; simp
    | cons y l ih =>
      intro acc
      simp only [List.foldl_cons, List.map_cons, List.sum_cons, ih]
      ring
  have h0 := haux yearly 0
  rw [zero_add] at h0
  exact h0

lemma calculateEMI_gt_interest (p r : ℚ) (n : ℕ) (hp : 0 < p) (hr : 0 < r)
    (hn : 0 < n) : p * (r / 100 / 12) < calculateEMI p r n := by
  have hmr : 0 < r / 100 / 12 := by positivity
  have hq : (1 : ℚ) < (1 + r / 100 / 12) ^ n :=
    one_lt_pow₀ (by linarith) (Nat.pos_iff_ne_zero.mp hn)
  have hden : 0 < (1 + r / 100 / 12) ^ n - 1 := by linarith
  have hpmr : 0 < p * (r / 100 / 12) := by positivity
  unfold calculateEMI
  rw [if_neg (by push_neg; exact ⟨hp, hr, Nat.pos_iff_ne_zero.mp hn⟩)]
  dsimp only
  rw [lt_div_iff₀ hden]
  nlinarith [hpmr, hq]

lemma analyzeLoan_fields (inp : ScenarioInput) (res : Result)
    (h : analyzeLoan inp = some res) :
    res.originalEmi =
      calculateEMI inp.loanAmount inp.interestRate (inp.tenureYears * 12) ∧
    res.originalAmortization =
      generateFullAmortization inp.loanAmount inp.interestRate
        (inp.tenureYears * 12)
        (calculateEMI inp.loanAmount inp.interestRate (inp.tenureYears * 12)) ∧
    res.investmentGain =
      inp.extraCash * (1 + inp.investmentReturn / 100) ^ inp.tenureYears -
        inp.extraCash ∧
    res.investmentTax =
      (if inp.investmentType = InvestmentType.equity then
        max 0 (res.investmentGain - EQUITY_LTCG_EXEMPTION) * EQUITY_LTCG_TAX_RATE
      else res.investmentGain * (inp.taxSlab / 100)) ∧
    res.postTaxInvestmentGain = res.investmentGain - res.investmentTax ∧
    res.originalLoanTaxBenefit =
      (if inp.taxRegime = TaxRegime.old then
        applyDeductionCaps (yearlyAggregatesFrom 1 res.originalAmortization)
          (max 0 (SECTION_80C_LIMIT - inp.used80C)) (inp.taxSlab / 100)
      else 0) ∧
    res.prepaidLoanTaxBenefit =
      (if inp.taxRegime = TaxRegime.old then
        applyDeductionCaps (yearlyAggregatesFrom 1 res.prepaidAmortization)
          (max 0 (SECTION_80C_LIMIT - inp.used80C)) (inp.taxSlab / 100)
      else 0) ∧
    res.interestSaved =
      (res.originalAmortization.map Row.interest).sum -
        (res.prepaidAmortization.map Row.interest).sum ∧
    res.netBenefitInvesting =
      res.postTaxInvestmentGain + res.originalLoanTaxBenefit ∧
    res.netBenefitPrepaying = res.interestSaved + res.prepaidLoanTaxBenefit ∧
    res.betterOption =
      (if res.netBenefitInvesting > res.netBenefitPrepaying then
        Recommendation.Invest
      else Recommendation.Prepay) := by
  by_cases hb : 0 < inp.loanAmount - inp.extraCash
  · simp only [analyzeLoan] at h
    rw [if_pos hb] at h
    cases hm : inp.prepaymentMethod with
    | reduceEmi =>
      rw [hm] at h
      dsimp only at h
      rw [Option.some_inj] at h
      subst h
      exact ⟨rfl, rfl, rfl, rfl, rfl, rfl, rfl, rfl, rfl, rfl, rfl⟩
    | reduceTenure =>
      rw [hm] at h
      dsimp only at h
      by_cases ht :
        calculateNewTenure ((inp.loanAmount - inp.extraCash : ℚ) : ℝ)
          ((calculateEMI inp.loanAmount inp.interestRate (inp.tenureYears * 12) : ℚ) : ℝ)
          ((inp.interestRate : ℚ) : ℝ) = ⊤
      · rw [dif_pos ht] at h
        simp at h
      · rw [dif_neg ht] at h
        dsimp only at h
        rw [Option.some_inj] at h
        subst h
        exact ⟨rfl, rfl, rfl, rfl, rfl, rfl, rfl, rfl, rfl, rfl, rfl⟩
  · simp only [analyzeLoan] at h
    rw [if_neg hb] at h
    rw [Option.some_inj] at h
    subst h
    refine ⟨rfl, rfl, rfl, rfl, rfl, rfl, ?_, ?_, rfl, rfl, rfl⟩
    · simp [yearlyAggregatesFrom, yearlyAggAux, applyDeductionCaps]
    · simp

/-- C1: for every completed run, netBenefitInvesting is the post-tax
investment gain plus the tax benefit of continuing the loan,
netBenefitPrepaying is interestSaved plus the tax benefit of the prepaid
loan, and the recommendation is Invest exactly when netBenefitInvesting is
strictly greater; on equality it is Prepay. -/
theorem analyzeLoan_decision_comparator (inp : ScenarioInput) (res : Result)
    (h : analyzeLoan inp = some res) :
    res.netBenefitInvesting =
      res.postTaxInvestmentGain + res.originalLoanTaxBenefit ∧
    res.netBenefitPrepaying = res.interestSaved + res.prepaidLoanTaxBenefit ∧
    (res.betterOption = Recommendation.Invest ↔
      res.netBenefitPrepaying < res.netBenefitInvesting) ∧
    (res.netBenefitInvesting = res.netBenefitPrepaying →
      res.betterOption = Recommendation.Prepay) := by
  obtain ⟨-, -, -, -, -, -, -, -, h9, h10, h11⟩ := analyzeLoan_fields inp res h
  refine ⟨h9, h10, ?_, ?_⟩
  · rw [h11]
    by_cases hgt : res.netBenefitPrepaying < res.netBenefitInvesting
    · simp [gt_iff_lt, hgt]
    · simp [gt_iff_lt, hgt]
  · intro heq
    rw [h11, if_neg (by rw [heq]; exact lt_irrefl _)]

/-- Witness for C1 on the degenerate sample scenario (a tie, resolved to
Prepay). -/
theorem analyzeLoan_decision_comparator_witness :
    analyzeLoan decisionSampleInput = some decisionSampleResult ∧
    (decisionSampleResult.betterOption = Recommendation.Invest ↔
      decisionSampleResult.netBenefitPrepaying <
        decisionSampleResult.netBenefitInvesting) ∧
    decisionSampleResult.netBenefitInvesting =
      decisionSampleResult.postTaxInvestmentGain +
        decisionSampleResult.originalLoanTaxBenefit := by
  have h : analyzeLoan decisionSampleInput = some decisionSampleResult := by
    norm_num [analyzeLoan, decisionSampleInput, decisionSampleResult,
      calculateEMI, generateFullAmortization, amortizeFrom, stepBalance,
      yearlyAggregatesFrom, yearlyAggAux, applyDeductionCaps,
      SECTION_80C_LIMIT, SECTION_24B_SOP_LIMIT, EQUITY_LTCG_EXEMPTION,
      EQUITY_LTCG_TAX_RATE]
  have hc := analyzeLoan_decision_comparator decisionSampleInput
    decisionSampleResult h
  exact ⟨h, hc.2.2.1, hc.1⟩

/-- C4: under the old regime, each total tax benefit is the sum, over the
years of the corresponding schedule, of (min(annualInterest, interestCap) +
min(annualPrincipal, remainingPrincipalAllowance)) × taxSlabFraction, where
the remaining allowance max(0, 80C limit − used) is one fixed per-scenario
value; headroom never carries between years. -/
theorem analyzeLoan_deduction_caps (inp : ScenarioInput) (res : Result)
    (h : analyzeLoan inp = some res) (hold : inp.taxRegime = TaxRegime.old) :
    res.originalLoanTaxBenefit =
      ((yearlyAggregatesFrom 1 res.originalAmortization).map (fun y =>
        (min y.interest SECTION_24B_SOP_LIMIT +
          min y.principal (max 0 (SECTION_80C_LIMIT - inp.used80C))) *
        (inp.taxSlab / 100))).sum ∧
    res.prepaidLoanTaxBenefit =
      ((yearlyAggregatesFrom 1 res.prepaidAmortization).map (fun y =>
        (min y.interest SECTION_24B_SOP_LIMIT +
          min y.principal (max 0 (SECTION_80C_LIMIT - inp.used80C))) *
        (inp.taxSlab / 100))).sum := by
  obtain ⟨-, -, -, -, -, h6, h7, -, -, -, -⟩ := analyzeLoan_fields inp res h
  rw [h6, h7, if_pos hold, if_pos hold, applyDeductionCaps_eq_sum,
    applyDeductionCaps_eq_sum]
  exact ⟨rfl, rfl⟩

/-- Witness for C4 on an old-regime sample scenario whose 80C allowance is
fully consumed. -/
theorem analyzeLoan_deduction_caps_witness :
    analyzeLoan deductionSampleInput = some deductionSampleResult ∧
    deductionSampleInput.taxRegime = TaxRegime.old ∧
    deductionSampleResult.originalLoanTaxBenefit =
      ((yearlyAggregatesFrom 1 deductionSampleResult.originalAmortization).map
        (fun y =>
          (min y.interest SECTION_24B_SOP_LIMIT +
            min y.principal
              (max 0 (SECTION_80C_LIMIT - deductionSampleInput.used80C))) *
          (deductionSampleInput.taxSlab / 100))).sum := by
  have h : analyzeLoan deductionSampleInput = some deductionSampleResult := by
    norm_num [analyzeLoan, deductionSampleInput, deductionSampleResult,
      calculateEMI, generateFullAmortization, amortizeFrom, stepBalance,
      yearlyAggregatesFrom, yearlyAggAux, applyDeductionCaps,
      SECTION_80C_LIMIT, SECTION_24B_SOP_LIMIT, EQUITY_LTCG_EXEMPTION,
      EQUITY_LTCG_TAX_RATE]
  exact ⟨h, rfl,
    (analyzeLoan_deduction_caps deductionSampleInput deductionSampleResult h
      rfl).1⟩

/-- C5: under the new tax regime both tax-benefit totals are exactly 0
whatever the other inputs are. -/
theorem analyzeLoan_new_regime_zero (inp : ScenarioInput) (res : Result)
    (h : analyzeLoan inp = some res) (hnew : inp.taxRegime = TaxRegime.new) :
    res.originalLoanTaxBenefit = 0 ∧ res.prepaidLoanTaxBenefit = 0 := by
  obtain ⟨-, -, -, -, -, h6, h7, -, -, -, -⟩ := analyzeLoan_fields inp res h
  rw [hnew] at h6 h7
  simp only [reduceCtorEq, if_false] at h6 h7
  exact ⟨h6, h7⟩

/-- Witness for C5 on a new-regime sample scenario. -/
theorem analyzeLoan_new_regime_zero_witness :
    analyzeLoan newRegimeSampleInput = some newRegimeSampleResult ∧
    newRegimeSampleInput.taxRegime = TaxRegime.new ∧
    newRegimeSampleResult.originalLoanTaxBenefit = 0 ∧
    newRegimeSampleResult.prepaidLoanTaxBenefit = 0 := by
  have h : analyzeLoan newRegimeSampleInput = some newRegimeSampleResult := by
    norm_num [analyzeLoan, newRegimeSampleInput, newRegimeSampleResult,
      calculateEMI, generateFullAmortization, amortizeFrom, stepBalance,
      yearlyAggregatesFrom, yearlyAggAux, applyDeductionCaps,
      SECTION_80C_LIMIT, SECTION_24B_SOP_LIMIT, EQUITY_LTCG_EXEMPTION,
      EQUITY_LTCG_TAX_RATE]
  have hc := analyzeLoan_new_regime_zero newRegimeSampleInput
    newRegimeSampleResult h rfl
  exact ⟨h, rfl, hc.1, hc.2⟩

/-- C6: when extra cash is at least the outstanding principal, the run still
completes (a valid terminal state, not an error) with an empty prepaid
schedule, zero new installment, zero new tenure, and interestSaved equal to
the whole original interest total. -/
theorem analyzeLoan_fully_retired (inp : ScenarioInput) (res : Result)
    (h : analyzeLoan inp = some res)
    (hcash : inp.loanAmount ≤ inp.extraCash) :
    res.prepaidAmortization = [] ∧ res.newEmi = 0 ∧
    res.newTenureMonths = 0 ∧
    res.interestSaved = (res.originalAmortization.map Row.interest).sum := by
  have hb : ¬ 0 < inp.loanAmount - inp.extraCash := not_lt.mpr (by linarith)
  simp only [analyzeLoan] at h
  rw [if_neg hb] at h
  rw [Option.some_inj] at h
  subst h
  exact ⟨rfl, rfl, rfl, rfl⟩

/-- Witness for C6 on a scenario whose extra cash (200) exceeds the
principal (100). -/
theorem analyzeLoan_fully_retired_witness :
    analyzeLoan retiredSampleInput = some retiredSampleResult ∧
    retiredSampleInput.loanAmount ≤ retiredSampleInput.extraCash ∧
    retiredSampleResult.prepaidAmortization = [] ∧
    retiredSampleResult.newEmi = 0 ∧ retiredSampleResult.newTenureMonths = 0 ∧
    retiredSampleResult.interestSaved =
      (retiredSampleResult.originalAmortization.map Row.interest).sum := by
  have h : analyzeLoan retiredSampleInput = some retiredSampleResult := by
    norm_num [analyzeLoan, retiredSampleInput, retiredSampleResult,
      calculateEMI, generateFullAmortization, amortizeFrom, stepBalance,
      yearlyAggregatesFrom, yearlyAggAux, applyDeductionCaps,
      SECTION_80C_LIMIT, SECTION_24B_SOP_LIMIT, EQUITY_LTCG_EXEMPTION,
      EQUITY_LTCG_TAX_RATE]
  have hc := analyzeLoan_fully_retired retiredSampleInput retiredSampleResult h
    (by norm_num [retiredSampleInput])
  exact ⟨h, by norm_num [retiredSampleInput], hc.1, hc.2.1, hc.2.2.1, hc.2.2.2⟩

/-- C8: the investment projector compounds annually over whole years
(futureValue = cash·(1 + return/100)^years, grossGain = futureValue − cash),
and for an equity investment whose gross gain is below the LTCG exemption
the investment tax is 0 and the post-tax gain equals the gross gain. -/
theorem analyzeLoan_investment_projection (inp : ScenarioInput) (res : Result)
    (h : analyzeLoan inp = some res) :
    res.investmentGain =
      inp.extraCash * (1 + inp.investmentReturn / 100) ^ inp.tenureYears -
        inp.extraCash ∧
    (inp.investmentType = InvestmentType.equity →
      res.investmentGain < EQUITY_LTCG_EXEMPTION →
      res.investmentTax = 0 ∧ res.postTaxInvestmentGain = res.investmentGain) := by
  obtain ⟨-, -, h3, h4, h5, -, -, -, -, -, -⟩ := analyzeLoan_fields inp res h
  refine ⟨h3, fun heq hlt => ?_⟩
  have htax : res.investmentTax = 0 := by
    rw [h4, if_pos heq, max_eq_left (by linarith), zero_mul]
  exact ⟨htax, by rw [h5, htax, sub_zero]⟩

/-- Witness for C8 on an equity scenario with gross gain 50, far below the
exemption. -/
theorem analyzeLoan_investment_projection_witness :
    analyzeLoan investmentSampleInput = some investmentSampleResult ∧
    investmentSampleInput.investmentType = InvestmentType.equity ∧
    investmentSampleResult.investmentGain < EQUITY_LTCG_EXEMPTION ∧
    investmentSampleResult.investmentTax = 0 ∧
    investmentSampleResult.postTaxInvestmentGain =
      investmentSampleResult.investmentGain := by
  have h : analyzeLoan investmentSampleInput = some investmentSampleResult := by
    norm_num [analyzeLoan, investmentSampleInput, investmentSampleResult,
      calculateEMI, generateFullAmortization, amortizeFrom, stepBalance,
      yearlyAggregatesFrom, yearlyAggAux, applyDeductionCaps,
      SECTION_80C_LIMIT, SECTION_24B_SOP_LIMIT, EQUITY_LTCG_EXEMPTION,
      EQUITY_LTCG_TAX_RATE]
  have hlt : investmentSampleResult.investmentGain < EQUITY_LTCG_EXEMPTION := by
    norm_num [investmentSampleResult, EQUITY_LTCG_EXEMPTION]
  have hc := (analyzeLoan_investment_projection investmentSampleInput
    investmentSampleResult h).2 rfl hlt
  exact ⟨h, rfl, hlt, hc.1, hc.2⟩

/-- C10: for a positive principal, rate and tenure and extra cash strictly
between 0 and the principal, the original installment strictly exceeds the
monthly interest on the reduced principal; hence the never-amortizes ⊤
branch of `calculateNewTenure` is unreachable in the reduce-tenure path and
`analyzeLoan` always completes (the schedule generator is run with a finite
month bound). -/
theorem analyzeLoan_reduce_tenure_safe (inp : ScenarioInput)
    (hp : 0 < inp.loanAmount) (hr : 0 < inp.interestRate)
    (hn : 0 < inp.tenureYears) (hc : 0 < inp.extraCash)
    (hcp : inp.extraCash < inp.loanAmount) :
    (inp.loanAmount - inp.extraCash) * (inp.interestRate / 100 / 12) <
      calculateEMI inp.loanAmount inp.interestRate (inp.tenureYears * 12) ∧
    calculateNewTenure ((inp.loanAmount - inp.extraCash : ℚ) : ℝ)
      ((calculateEMI inp.loanAmount inp.interestRate (inp.tenureYears * 12) : ℚ) : ℝ)
      ((inp.interestRate : ℚ) : ℝ) ≠ ⊤ ∧
    analyzeLoan inp ≠ none := by
  have hnpos : 0 < inp.tenureYears * 12 := Nat.mul_pos hn (by norm_num)
  have hlt : (inp.loanAmount - inp.extraCash) * (inp.interestRate / 100 / 12) <
      calculateEMI inp.loanAmount inp.interestRate (inp.tenureYears * 12) :=
    calc (inp.loanAmount - inp.extraCash) * (inp.interestRate / 100 / 12) <
        inp.loanAmount * (inp.interestRate / 100 / 12) :=
          mul_lt_mul_of_pos_right (by linarith) (by positivity)
      _ < calculateEMI inp.loanAmount inp.interestRate (inp.tenureYears * 12) :=
          calculateEMI_gt_interest inp.loanAmount inp.interestRate
            (inp.tenureYears * 12) hp hr hnpos
  have hemi_pos :
      0 < calculateEMI inp.loanAmount inp.interestRate (inp.tenureYears * 12) :=
    lt_trans (mul_pos (by linarith) (by positivity)) hlt
  have hne : calculateNewTenure ((inp.loanAmount - inp.extraCash : ℚ) : ℝ)
      ((calculateEMI inp.loanAmount inp.interestRate (inp.tenureYears * 12) : ℚ) : ℝ)
      ((inp.interestRate : ℚ) : ℝ) ≠ ⊤ := by
    unfold calculateNewTenure
    rw [if_neg (by
      push_neg
      refine ⟨by exact_mod_cast sub_pos.mpr hcp, ?_, ?_⟩
      · exact_mod_cast hemi_pos
      · exact_mod_cast hr)]
    dsimp only
    rw [if_neg (by
      rw [not_le]
      exact_mod_cast hlt)]
    exact WithTop.coe_ne_top
  refine ⟨hlt, hne, ?_⟩
  have hb : 0 < inp.loanAmount - inp.extraCash := by linarith
  intro habs
  simp only [analyzeLoan] at habs
  rw [if_pos hb] at habs
  cases hm : inp.prepaymentMethod with
  | reduceEmi =>
    rw [hm] at habs
    dsimp only at habs
    simp at habs
  | reduceTenure =>
    rw [hm] at habs
    dsimp only at habs
    rw [dif_neg hne] at habs
    dsimp only at habs
    simp at habs

/-- Witness for C10 on a well-formed reduce-tenure scenario. -/
theorem analyzeLoan_reduce_tenure_safe_witness :
    (reduceTenureSampleInput.loanAmount - reduceTenureSampleInput.extraCash) *
        (reduceTenureSampleInput.interestRate / 100 / 12) <
      calculateEMI reduceTenureSampleInput.loanAmount
        reduceTenureSampleInput.interestRate
        (reduceTenureSampleInput.tenureYears * 12) ∧
    calculateNewTenure
      ((reduceTenureSampleInput.loanAmount -
          reduceTenureSampleInput.extraCash : ℚ) : ℝ)
      ((calculateEMI reduceTenureSampleInput.loanAmount
          reduceTenureSampleInput.interestRate
          (reduceTenureSampleInput.tenureYears * 12) : ℚ) : ℝ)
      ((reduceTenureSampleInput.interestRate : ℚ) : ℝ) ≠ ⊤ ∧
    analyzeLoan reduceTenureSampleInput ≠ none :=
  analyzeLoan_reduce_tenure_safe reduceTenureSampleInput
    (by norm_num [reduceTenureSampleInput]) (by norm_num [reduceTenureSampleInput])
    (by norm_num [reduceTenureSampleInput]) (by norm_num [reduceTenureSampleInput])
    (by norm_num [reduceTenureSampleInput])

end LoanAdvisor
